import Mathlib

/-!
Shallow embedding of the real-time market-data client of WR_Trade_Pro
(src/wr-trading-pro/lib/websocket/client.ts and the coalescing candle cache
in the market-data hook), together with theorems checking the repository's
specification against it.

Modelling conventions:
* JavaScript promises are modelled by `PromiseState`: `resolve`/`reject` on an
  already settled promise is a no-op (`PromiseState.settle`).
* The `!this.socket || !this.isConnected` guard of the source collapses to a
  single `connected : Bool` flag: the socket is non-null whenever the client is
  connected.
* JS `Map`s are association lists in insertion order (`mapLookup`, `mapSet`,
  `mapDelete`); JS `Set`s are duplicate-free lists in insertion order
  (`setInsert`, `cbInsert`).
* Opaque payloads (order books, accounts) are abstracted as `Nat`; candle lists
  as `List Nat`; callbacks as `Nat` identifiers.
-/

namespace WRTradePro

/-- Error kinds a pull query can reject with (client.ts uses
`new Error('Timeout waiting for ...')` and `new Error('Not connected to
Socket.IO server')`). -/
inductive QueryErr
  | timeout
  | notConnected
  deriving DecidableEq, Repr

/-- A JavaScript promise: pending, or settled (resolved/rejected). -/
inductive PromiseState (α : Type)
  | pending
  | resolved (v : α)
  | rejected (e : QueryErr)
  deriving DecidableEq, Repr

/-- Calling `resolve`/`reject` on a promise: a no-op once settled. -/
def PromiseState.settle {α : Type} (p : PromiseState α) (outcome : PromiseState α) :
    PromiseState α :=
  match p with
  | .pending => outcome
  | _ => p

/-- Whether a promise is settled. -/
def PromiseState.isSettled {α : Type} : PromiseState α → Bool
  | .pending => false
  | _ => true

/-! ### getOrderBook (client.ts lines 452-474)

`getOrderBook` registers its handler through `this.once('order_book', handler)`.
`once` (lines 94-107) wraps the handler in `onceHandler`, which FIRST
deregisters itself (`this.off(event, onceHandler)`, removing it from the
internal listener set and from the socket) and THEN calls the handler; the
handler checks `data.symbol === symbol` only after that.  So the first inbound
`order_book` event of any symbol consumes the registration.  The timeout
callback (line 459-461) only calls `reject` — it does not deregister the
handler.  `onceHandler` ends up registered on the socket more than once
(via `this.on`'s `socket.on` and via `socket.once`), but its first invocation
removes every registration and promise settlement is idempotent, so a single
`listenerRegistered` flag is observationally faithful. -/

/-- State of one in-flight `getOrderBook(symbol)` call. -/
structure GetOrderBookCall where
  promise : PromiseState Nat
  listenerRegistered : Bool
  timerActive : Bool
  deriving DecidableEq, Repr

/-- Events that can hit a pending `getOrderBook` call: an inbound `order_book`
push (with its embedded symbol), or the 5s timeout firing. -/
inductive ObEvent
  | response (sym : String) (book : Nat)
  | timerFire
  deriving DecidableEq, Repr

/-- `getOrderBook` entry (lines 452-457): when not connected, reject with
NotConnected and register nothing; otherwise arm the timer and register the
once-handler. -/
def getOrderBook (connected : Bool) : GetOrderBookCall :=
  if connected then
    { promise := .pending, listenerRegistered := true, timerActive := true }
  else
    { promise := .rejected .notConnected, listenerRegistered := false, timerActive := false }

/-- One event hitting a `getOrderBook(querySym)` call. -/
def obStep (querySym : String) (s : GetOrderBookCall) : ObEvent → GetOrderBookCall
  | .response sym book =>
      if s.listenerRegistered then
        -- onceHandler: deregister unconditionally, then key-check in handler
        if sym = querySym then
          { promise := s.promise.settle (.resolved book),
            listenerRegistered := false, timerActive := false }
        else
          { s with listenerRegistered := false }
      else s
  | .timerFire =>
      if s.timerActive then
        -- timeout callback only rejects; the listener stays registered
        { s with promise := s.promise.settle (.rejected .timeout), timerActive := false }
      else s

/-- Run a `getOrderBook` call through a sequence of events. -/
def obRun (querySym : String) (s : GetOrderBookCall) (es : List ObEvent) : GetOrderBookCall :=
  es.foldl (obStep querySym) s

/-! ### getCandles (client.ts lines 420-450)

`getCandles` is different from the other three pull queries: when not connected
it `resolve([])`s (line 424) instead of rejecting; its handler is registered
with a plain `this.socket.on('candles', handler)` (line 447) and deregisters
itself only when the symbol AND timeframe match (lines 439-444); and its
timeout callback `resolve([])`s after removing the socket handler
(lines 430-434) instead of rejecting with a Timeout error. -/

/-- State of one in-flight `getCandles(symbol, timeframe, count)` call. -/
structure GetCandlesCall where
  promise : PromiseState (List Nat)
  listenerRegistered : Bool
  timerActive : Bool
  deriving DecidableEq, Repr

/-- Events that can hit a pending `getCandles` call. -/
inductive CandlesEvent
  | response (sym tf : String) (candles : List Nat)
  | timerFire
  deriving DecidableEq, Repr

/-- `getCandles` entry (lines 420-427): when not connected it resolves with the
empty list and registers nothing. -/
def getCandles (connected : Bool) : GetCandlesCall :=
  if connected then
    { promise := .pending, listenerRegistered := true, timerActive := true }
  else
    { promise := .resolved [], listenerRegistered := false, timerActive := false }

/-- One event hitting a `getCandles(sym, tf, _)` call. -/
def candlesStep (querySym queryTf : String) (s : GetCandlesCall) :
    CandlesEvent → GetCandlesCall
  | .response sym tf cs =>
      if s.listenerRegistered then
        if sym = querySym ∧ tf = queryTf then
          { promise := s.promise.settle (.resolved cs),
            listenerRegistered := false, timerActive := false }
        else s  -- key mismatch: handler logs and stays registered
      else s
  | .timerFire =>
      if s.timerActive then
        -- timeout: `this.socket?.off('candles', handler); resolve([])`
        { promise := s.promise.settle (.resolved []),
          listenerRegistered := false, timerActive := false }
      else s

/-- Run a `getCandles` call through a sequence of events. -/
def candlesRun (querySym queryTf : String) (s : GetCandlesCall) (es : List CandlesEvent) :
    GetCandlesCall :=
  es.foldl (candlesStep querySym queryTf) s

/-! ### getSymbols (lines 398-418) and getAccountInfo (lines 476-496)

Both are unkeyed: their handlers accept the first response of the matching
kind.  Both register via `this.once`, and their timeout callbacks only
`reject` — the listener is not deregistered on timeout. -/

/-- State of one in-flight `getSymbols()` call. -/
structure GetSymbolsCall where
  promise : PromiseState (List String)
  listenerRegistered : Bool
  timerActive : Bool
  deriving DecidableEq, Repr

/-- Events that can hit a pending `getSymbols` call. -/
inductive SymbolsEvent
  | response (syms : List String)
  | timerFire
  deriving DecidableEq, Repr

/-- `getSymbols` entry (lines 398-403). -/
def getSymbols (connected : Bool) : GetSymbolsCall :=
  if connected then
    { promise := .pending, listenerRegistered := true, timerActive := true }
  else
    { promise := .rejected .notConnected, listenerRegistered := false, timerActive := false }

/-- One event hitting a `getSymbols` call. -/
def symbolsStep (s : GetSymbolsCall) : SymbolsEvent → GetSymbolsCall
  | .response syms =>
      if s.listenerRegistered then
        { promise := s.promise.settle (.resolved syms),
          listenerRegistered := false, timerActive := false }
      else s
  | .timerFire =>
      if s.timerActive then
        { s with promise := s.promise.settle (.rejected .timeout), timerActive := false }
      else s

/-- State of one in-flight `getAccountInfo()` call. -/
structure GetAccountInfoCall where
  promise : PromiseState Nat
  listenerRegistered : Bool
  timerActive : Bool
  deriving DecidableEq, Repr

/-- Events that can hit a pending `getAccountInfo` call. -/
inductive AccountEvent
  | response (account : Nat)
  | timerFire
  deriving DecidableEq, Repr

/-- `getAccountInfo` entry (lines 476-481). -/
def getAccountInfo (connected : Bool) : GetAccountInfoCall :=
  if connected then
    { promise := .pending, listenerRegistered := true, timerActive := true }
  else
    { promise := .rejected .notConnected, listenerRegistered := false, timerActive := false }

/-- One event hitting a `getAccountInfo` call. -/
def accountStep (s : GetAccountInfoCall) : AccountEvent → GetAccountInfoCall
  | .response account =>
      if s.listenerRegistered then
        { promise := s.promise.settle (.resolved account),
          listenerRegistered := false, timerActive := false }
      else s
  | .timerFire =>
      if s.timerActive then
        { s with promise := s.promise.settle (.rejected .timeout), timerActive := false }
      else s

/-! ### Settlement-permanence lemmas -/

theorem settle_of_isSettled {α : Type} (p q : PromiseState α) (h : p.isSettled = true) :
    p.settle q = p := by
  cases p <;> simp_all [PromiseState.settle, PromiseState.isSettled]

theorem obStep_settled (querySym : String) (s : GetOrderBookCall) (e : ObEvent)
    (h : s.promise.isSettled = true) :
    (obStep querySym s e).promise = s.promise ∧
      (obStep querySym s e).promise.isSettled = true := by
  cases e with
  | response sym book =>
      simp only [obStep]
      split
      · split
        · simp [settle_of_isSettled _ _ h, h]
        · exact ⟨rfl, h⟩
      · exact ⟨rfl, h⟩
  | timerFire =>
      simp only [obStep]
      split
      · simp [settle_of_isSettled _ _ h, h]
      · exact ⟨rfl, h⟩

theorem obRun_settled (querySym : String) (s : GetOrderBookCall) (es : List ObEvent)
    (h : s.promise.isSettled = true) :
    (obRun querySym s es).promise = s.promise := by
  induction es generalizing s with
  | nil => rfl
  | cons e rest ih =>
      have hs := obStep_settled querySym s e h
      calc (obRun querySym s (e :: rest)).promise
          = (obRun querySym (obStep querySym s e) rest).promise := rfl
        _ = (obStep querySym s e).promise := ih _ hs.2
        _ = s.promise := hs.1

theorem candlesStep_settled (querySym queryTf : String) (s : GetCandlesCall)
    (e : CandlesEvent) (h : s.promise.isSettled = true) :
    (candlesStep querySym queryTf s e).promise = s.promise ∧
      (candlesStep querySym queryTf s e).promise.isSettled = true := by
  cases e with
  | response sym tf cs =>
      simp only [candlesStep]
      split
      · split
        · simp [settle_of_isSettled _ _ h, h]
        · exact ⟨rfl, h⟩
      · exact ⟨rfl, h⟩
  | timerFire =>
      simp only [candlesStep]
      split
      · simp [settle_of_isSettled _ _ h, h]
      · exact ⟨rfl, h⟩

theorem candlesRun_settled (querySym queryTf : String) (s : GetCandlesCall)
    (es : List CandlesEvent) (h : s.promise.isSettled = true) :
    (candlesRun querySym queryTf s es).promise = s.promise := by
  induction es generalizing s with
  | nil => rfl
  | cons e rest ih =>
      have hs := candlesStep_settled querySym queryTf s e h
      calc (candlesRun querySym queryTf s (e :: rest)).promise
          = (candlesRun querySym queryTf (candlesStep querySym queryTf s e) rest).promise := rfl
        _ = (candlesStep querySym queryTf s e).promise := ih _ hs.2
        _ = s.promise := hs.1

/-! ### Unrelated-event predicates and run lemmas -/

/-- An inbound `order_book` event unrelated to the query: same kind, different
symbol.  Timer events are not "unrelated responses". -/
def ObEvent.isUnrelated (querySym : String) : ObEvent → Bool
  | .response sym _ => sym != querySym
  | .timerFire => false

/-- An inbound `candles` event unrelated to the query: same kind, but symbol or
timeframe differs. -/
def CandlesEvent.isUnrelated (querySym queryTf : String) : CandlesEvent → Bool
  | .response sym tf _ => !(sym == querySym && tf == queryTf)
  | .timerFire => false

theorem obRun_append (querySym : String) (s : GetOrderBookCall) (es1 es2 : List ObEvent) :
    obRun querySym s (es1 ++ es2) = obRun querySym (obRun querySym s es1) es2 := by
  simp [obRun]

theorem candlesRun_append (querySym queryTf : String) (s : GetCandlesCall)
    (es1 es2 : List CandlesEvent) :
    candlesRun querySym queryTf s (es1 ++ es2)
      = candlesRun querySym queryTf (candlesRun querySym queryTf s es1) es2 := by
  simp [candlesRun]

/-- Unrelated `order_book` events never touch the promise or the timer (they
may consume the listener). -/
theorem obRun_unrelated (querySym : String) (es : List ObEvent) (s : GetOrderBookCall)
    (h : es.all (ObEvent.isUnrelated querySym) = true) :
    (obRun querySym s es).promise = s.promise ∧
      (obRun querySym s es).timerActive = s.timerActive := by
  induction es generalizing s with
  | nil => exact ⟨rfl, rfl⟩
  | cons e rest ih =>
      rw [List.all_cons, Bool.and_eq_true] at h
      have step : (obStep querySym s e).promise = s.promise ∧
          (obStep querySym s e).timerActive = s.timerActive := by
        cases e with
        | response sym book =>
            have hne : ¬(sym = querySym) := by
              simpa [ObEvent.isUnrelated] using h.1
            simp [obStep, hne]
            split <;> simp
        | timerFire => simp [ObEvent.isUnrelated] at h
      have := ih (obStep querySym s e) h.2
      exact ⟨this.1.trans step.1, this.2.trans step.2⟩

/-- An unrelated `candles` event leaves a `getCandles` call entirely
unchanged: the handler is persistent and only acts when the key matches. -/
theorem candlesStep_unrelated (querySym queryTf : String) (s : GetCandlesCall)
    (e : CandlesEvent) (h : CandlesEvent.isUnrelated querySym queryTf e = true) :
    candlesStep querySym queryTf s e = s := by
  cases e with
  | response sym tf cs =>
      have hne : ¬(sym = querySym ∧ tf = queryTf) := by
        intro hc
        simp [CandlesEvent.isUnrelated, hc.1, hc.2] at h
      simp [candlesStep, hne]
  | timerFire => simp [CandlesEvent.isUnrelated] at h

theorem candlesRun_unrelated (querySym queryTf : String) (es : List CandlesEvent)
    (s : GetCandlesCall) (h : es.all (CandlesEvent.isUnrelated querySym queryTf) = true) :
    candlesRun querySym queryTf s es = s := by
  induction es generalizing s with
  | nil => rfl
  | cons e rest ih =>
      rw [List.all_cons, Bool.and_eq_true] at h
      calc candlesRun querySym queryTf s (e :: rest)
          = candlesRun querySym queryTf (candlesStep querySym queryTf s e) rest := rfl
        _ = candlesStep querySym queryTf s e := ih _ h.2
        _ = s := candlesStep_unrelated querySym queryTf s e h.1

/-! ### Claims C1, C2, C3 -/

/-- Claim C1 (amended).  For every pull query whose matching response does not
arrive before the timeout: getOrderBook, getSymbols and getAccountInfo reject
with a Timeout error but the response listener is NOT deregistered (the timeout
callback only rejects); getCandles instead RESOLVES with the empty list (never
a Timeout rejection) and does deregister its handler.  Each call still settles
exactly once: promise settlement is idempotent, so any events after settlement
— including a late matching response — leave the outcome unchanged. -/
theorem pull_query_timeout_outcome :
    (∀ querySym (es : List ObEvent), es.all (ObEvent.isUnrelated querySym) = true →
        (obRun querySym (getOrderBook true) (es ++ [ObEvent.timerFire])).promise
          = PromiseState.rejected QueryErr.timeout)
  ∧ (obRun "X" (getOrderBook true) [ObEvent.timerFire]).listenerRegistered = true
  ∧ (∀ querySym queryTf (es : List CandlesEvent),
        es.all (CandlesEvent.isUnrelated querySym queryTf) = true →
        (candlesRun querySym queryTf (getCandles true) (es ++ [CandlesEvent.timerFire])).promise
            = PromiseState.resolved [] ∧
        (candlesRun querySym queryTf (getCandles true)
            (es ++ [CandlesEvent.timerFire])).listenerRegistered = false)
  ∧ (symbolsStep (getSymbols true) SymbolsEvent.timerFire).promise
        = PromiseState.rejected QueryErr.timeout
  ∧ (symbolsStep (getSymbols true) SymbolsEvent.timerFire).listenerRegistered = true
  ∧ (accountStep (getAccountInfo true) AccountEvent.timerFire).promise
        = PromiseState.rejected QueryErr.timeout
  ∧ (accountStep (getAccountInfo true) AccountEvent.timerFire).listenerRegistered = true
  ∧ (∀ querySym (s : GetOrderBookCall) (es extra : List ObEvent),
        (obRun querySym s es).promise.isSettled = true →
        (obRun querySym s (es ++ extra)).promise = (obRun querySym s es).promise)
  ∧ (∀ querySym queryTf (s : GetCandlesCall) (es extra : List CandlesEvent),
        (candlesRun querySym queryTf s es).promise.isSettled = true →
        (candlesRun querySym queryTf s (es ++ extra)).promise
          = (candlesRun querySym queryTf s es).promise) := by
  refine ⟨?_, by decide, ?_, by decide, by decide, by decide, by decide, ?_, ?_⟩
  · intro querySym es h
    rw [obRun_append]
    obtain ⟨hp, ht⟩ := obRun_unrelated querySym es (getOrderBook true) h
    have hp' : (obRun querySym (getOrderBook true) es).promise = PromiseState.pending := hp
    have ht' : (obRun querySym (getOrderBook true) es).timerActive = true := ht
    show (obStep querySym (obRun querySym (getOrderBook true) es) ObEvent.timerFire).promise
        = PromiseState.rejected QueryErr.timeout
    simp [obStep, ht', hp', PromiseState.settle]
  · intro querySym queryTf es h
    rw [candlesRun_append, candlesRun_unrelated querySym queryTf es _ h]
    constructor
    · show (candlesStep querySym queryTf (getCandles true) CandlesEvent.timerFire).promise
          = PromiseState.resolved []
      simp [candlesStep, getCandles, PromiseState.settle]
    · show (candlesStep querySym queryTf (getCandles true)
          CandlesEvent.timerFire).listenerRegistered = false
      simp [candlesStep, getCandles]
  · intro querySym s es extra h
    rw [obRun_append]
    exact obRun_settled querySym _ extra h
  · intro querySym queryTf s es extra h
    rw [candlesRun_append]
    exact candlesRun_settled querySym queryTf _ extra h

/-- Witness for C1: a concrete unrelated-then-timeout trace for getOrderBook
rejects with Timeout. -/
theorem pull_query_timeout_outcome_witness :
    (obRun "EURUSD" (getOrderBook true)
        ([ObEvent.response "GBPUSD" 3] ++ [ObEvent.timerFire])).promise
      = PromiseState.rejected QueryErr.timeout :=
  pull_query_timeout_outcome.1 "EURUSD" [ObEvent.response "GBPUSD" 3] (by decide)

/-- Counterexample to C1 as stated: on timeout, getCandles resolves with the
empty list rather than rejecting with a Timeout error, and getOrderBook leaves
its response listener registered after the timeout rejection. -/
theorem pull_query_timeout_claim_counterexample :
    (candlesRun "EURUSD" "M5" (getCandles true) [CandlesEvent.timerFire]).promise
        = PromiseState.resolved [] ∧
    (candlesRun "EURUSD" "M5" (getCandles true) [CandlesEvent.timerFire]).promise
        ≠ PromiseState.rejected QueryErr.timeout ∧
    (obRun "EURUSD" (getOrderBook true) [ObEvent.timerFire]).listenerRegistered = true := by
  decide

/-- Claim C2 (amended).  getCandles tolerates unrelated `candles` events for a
different (symbol, timeframe): its persistent key-checked handler stays
registered, the call stays pending, and it still resolves when the matching
event later arrives.  getOrderBook does NOT: its once-handler deregisters
itself on the first `order_book` event of any symbol before checking the key,
so an unrelated event consumes the listener and a later matching event no
longer resolves the call. -/
theorem keyed_query_unrelated_tolerance :
    (∀ querySym queryTf (es : List CandlesEvent) (cs : List Nat),
        es.all (CandlesEvent.isUnrelated querySym queryTf) = true →
        (candlesRun querySym queryTf (getCandles true) es).listenerRegistered = true ∧
        (candlesRun querySym queryTf (getCandles true) es).promise = PromiseState.pending ∧
        (candlesRun querySym queryTf (getCandles true)
            (es ++ [CandlesEvent.response querySym queryTf cs])).promise
          = PromiseState.resolved cs)
  ∧ (∀ querySym sym (b b2 : Nat), sym ≠ querySym →
        (obRun querySym (getOrderBook true) [ObEvent.response sym b]).listenerRegistered
            = false ∧
        (obRun querySym (getOrderBook true)
            [ObEvent.response sym b, ObEvent.response querySym b2]).promise
          = PromiseState.pending) := by
  constructor
  · intro querySym queryTf es cs h
    rw [candlesRun_append, candlesRun_unrelated querySym queryTf es _ h]
    refine ⟨rfl, rfl, ?_⟩
    simp [candlesRun, candlesStep, getCandles, PromiseState.settle]
  · intro querySym sym b b2 hne
    constructor
    · simp [obRun, obStep, getOrderBook, hne]
    · simp [obRun, obStep, getOrderBook, hne]

/-- Witness for C2: a concrete unrelated-then-matching trace for getCandles
resolves with the matching payload. -/
theorem keyed_query_unrelated_tolerance_witness :
    (candlesRun "EURUSD" "M5" (getCandles true)
        ([CandlesEvent.response "GBPUSD" "M5" [1, 2]]
          ++ [CandlesEvent.response "EURUSD" "M5" [3, 4]])).promise
      = PromiseState.resolved [3, 4] :=
  (keyed_query_unrelated_tolerance.1 "EURUSD" "M5"
    [CandlesEvent.response "GBPUSD" "M5" [1, 2]] [3, 4] (by decide)).2.2

/-- Counterexample to C2 as stated: for getOrderBook, an unrelated
`order_book` event (symbol "GBPUSD") arriving before the matching one consumes
the pending listener, and the call does not resolve when the matching event
(symbol "EURUSD") later arrives. -/
theorem correlator_unrelated_counterexample :
    (obRun "EURUSD" (getOrderBook true)
        [ObEvent.response "GBPUSD" 1, ObEvent.response "EURUSD" 2]).promise
        = PromiseState.pending ∧
    (obRun "EURUSD" (getOrderBook true)
        [ObEvent.response "GBPUSD" 1]).listenerRegistered = false := by
  decide

/-- Claim C3 (amended).  Invoked while the transport is not Connected:
getOrderBook, getSymbols and getAccountInfo fail fast with a NotConnected
rejection, registering neither a listener nor a timer; getCandles also
registers nothing but RESOLVES with the empty list instead of rejecting with a
NotConnected error. -/
theorem pull_query_not_connected :
    getOrderBook false
      = { promise := PromiseState.rejected QueryErr.notConnected,
          listenerRegistered := false, timerActive := false } ∧
    getSymbols false
      = { promise := PromiseState.rejected QueryErr.notConnected,
          listenerRegistered := false, timerActive := false } ∧
    getAccountInfo false
      = { promise := PromiseState.rejected QueryErr.notConnected,
          listenerRegistered := false, timerActive := false } ∧
    getCandles false
      = { promise := PromiseState.resolved [],
          listenerRegistered := false, timerActive := false } := by
  decide

/-- Counterexample to C3 as stated: getCandles called while not connected
resolves with the empty list; it does not fail with a NotConnected error. -/
theorem candles_not_connected_counterexample :
    (getCandles false).promise = PromiseState.resolved [] ∧
    (getCandles false).promise ≠ PromiseState.rejected QueryErr.notConnected := by
  decide

/-! ### JS Map / Set helpers

JS `Map`s are association lists in insertion order with unique keys; JS `Set`s
are duplicate-free lists in insertion order. -/

/-- `Map.get`. -/
def mapLookup {κ α : Type} [DecidableEq κ] : List (κ × α) → κ → Option α
  | [], _ => none
  | (k, v) :: rest, key => if k = key then some v else mapLookup rest key

/-- `Map.set`: update in place if the key is present, else append. -/
def mapSet {κ α : Type} [DecidableEq κ] : List (κ × α) → κ → α → List (κ × α)
  | [], key, v => [(key, v)]
  | (k, w) :: rest, key, v =>
      if k = key then (k, v) :: rest else (k, w) :: mapSet rest key v

/-- `Map.delete`.  JS map keys are unique, so on every state a JS map can
reach this equals removing the single entry for the key. -/
def mapDelete {κ α : Type} [DecidableEq κ] (m : List (κ × α)) (key : κ) : List (κ × α) :=
  m.filter (fun (p : κ × α) => p.1 ≠ key)

/-- `Set.add` for symbols. -/
def setInsert (x : String) (xs : List String) : List String :=
  if x ∈ xs then xs else xs ++ [x]

/-- `Set.add` for callback handles. -/
def cbInsert (cb : Nat) (cbs : List Nat) : List Nat :=
  if cb ∈ cbs then cbs else cbs ++ [cb]

theorem mapLookup_mapSet_self {κ α : Type} [DecidableEq κ] (m : List (κ × α)) (key : κ)
    (v : α) : mapLookup (mapSet m key v) key = some v := by
  induction m with
  | nil => simp [mapSet, mapLookup]
  | cons p rest ih =>
      by_cases h : p.1 = key
      · simp [mapSet, mapLookup, h]
      · simp [mapSet, mapLookup, h, ih]

theorem mapLookup_mapDelete_self {κ α : Type} [DecidableEq κ] (m : List (κ × α))
    (key : κ) : mapLookup (mapDelete m key) key = none := by
  induction m with
  | nil => simp [mapDelete, mapLookup]
  | cons p rest ih =>
      by_cases h : p.1 = key
      · simpa [mapDelete, mapLookup, h] using ih
      · simpa [mapDelete, mapLookup, h] using ih

/-! ### Connection manager and subscription registry (client.ts)

`ClientState` carries the private fields of `WebSocketClient` that the claims
are about, plus `log`, the ordered record of outbound emissions and events
emitted to collaborators.  `reconnectTimer = some n` models a pending
`setTimeout` for reconnection attempt `n` (its delay is `delayOf n`);
the ping interval (Health Monitor) carries no claim-relevant state. -/

/-- One observable action: an outbound wire emission or an event emitted to
collaborators, in order of occurrence. -/
inductive WireItem
  | subscribeEmit (symbol : String)
  | unsubscribeEmit (symbol : String)
  | connectedEvent
  | disconnectedEvent
  | errorEvent (code : String)
  deriving DecidableEq, Repr

/-- `maxReconnectAttempts = 10` (client.ts line 31). -/
def maxReconnectAttempts : Nat := 10

/-- `reconnectDelay = 5000` ms (line 32). -/
def reconnectDelay : ℚ := 5000

/-- `reconnectDelayMultiplier = 1.5` (line 33); 1.5 and its first ten powers
are exact in binary floating point, so ℚ is a faithful carrier. -/
def reconnectDelayMultiplier : ℚ := 3 / 2

/-- Delay of reconnection attempt `n` (line 141):
`reconnectDelay * multiplier ^ (reconnectAttempts - 1)` computed after the
increment, so attempt `n` waits `5000 * 1.5 ^ (n - 1)` ms. -/
def delayOf (n : Nat) : ℚ := reconnectDelay * reconnectDelayMultiplier ^ (n - 1)

/-- The claim-relevant private state of the `WebSocketClient` singleton. -/
structure ClientState where
  subscribers : List (String × List Nat)
  pendingSubscriptions : List String
  isConnected : Bool
  reconnectAttempts : Nat
  reconnectTimer : Option Nat
  log : List WireItem
  deriving DecidableEq, Repr

/-- `sendSubscribe` (lines 347-356): queue the symbol while not connected,
else emit a subscribe request. -/
def sendSubscribe (s : ClientState) (symbol : String) : ClientState :=
  if s.isConnected then
    { s with log := s.log ++ [WireItem.subscribeEmit symbol] }
  else
    { s with pendingSubscriptions := setInsert symbol s.pendingSubscriptions }

/-- `sendUnsubscribe` (lines 358-366): do nothing while not connected (the
unsubscription is NOT queued), else emit an unsubscribe request. -/
def sendUnsubscribe (s : ClientState) (symbol : String) : ClientState :=
  if s.isConnected then
    { s with log := s.log ++ [WireItem.unsubscribeEmit symbol] }
  else s

/-- `subscribe` (lines 368-377): on the first callback for a symbol, create
its set and call `sendSubscribe`; always add the callback to the set. -/
def subscribe (s : ClientState) (symbol : String) (cb : Nat) : ClientState :=
  match mapLookup s.subscribers symbol with
  | some cbs =>
      { s with subscribers := mapSet s.subscribers symbol (cbInsert cb cbs) }
  | none =>
      let s1 := sendSubscribe { s with subscribers := mapSet s.subscribers symbol [] } symbol
      { s1 with subscribers := mapSet s1.subscribers symbol (cbInsert cb []) }

/-- `unsubscribe` (lines 379-396): with a callback, remove just it and tear
the subscription down when the set empties; without one, remove everything
and emit unsubscribe. -/
def unsubscribe (s : ClientState) (symbol : String) (cb : Option Nat) : ClientState :=
  match mapLookup s.subscribers symbol with
  | none => s
  | some cbs =>
      match cb with
      | some c =>
          let cbs1 := cbs.erase c
          if cbs1 = [] then
            sendUnsubscribe { s with subscribers := mapDelete s.subscribers symbol } symbol
          else
            { s with subscribers := mapSet s.subscribers symbol cbs1 }
      | none =>
          sendUnsubscribe { s with subscribers := mapDelete s.subscribers symbol } symbol

/-- `scheduleReconnection` (lines 129-151): at the cap, emit the
MAX_RECONNECT_ATTEMPTS error and stop; otherwise increment the attempt
counter and arm the reconnect timer for the new attempt. -/
def scheduleReconnection (s : ClientState) : ClientState :=
  if s.reconnectAttempts ≥ maxReconnectAttempts then
    { s with log := s.log ++ [WireItem.errorEvent "MAX_RECONNECT_ATTEMPTS"] }
  else
    { s with reconnectAttempts := s.reconnectAttempts + 1,
             reconnectTimer := some (s.reconnectAttempts + 1) }

/-- Socket `connect` handler (lines 199-225): set the connected flag, reset
the attempt counter, `startPingInterval` (whose `clearTimers` also clears the
reconnect timer), flush PendingSubscriptions through `sendSubscribe`, clear
them, then emit `connected`. -/
def handleConnect (s : ClientState) : ClientState :=
  let s1 := { s with isConnected := true, reconnectAttempts := 0, reconnectTimer := none }
  let s2 := s1.pendingSubscriptions.foldl sendSubscribe s1
  { s2 with pendingSubscriptions := [],
            log := s2.log ++ [WireItem.connectedEvent] }

/-- Socket `disconnect` handler (lines 227-244): drop the connected flag,
`clearTimers`, move every subscribed symbol into PendingSubscriptions, emit
`disconnected`, and schedule reconnection unless the reason is
`'io client disconnect'` or `'transport close'`. -/
def handleDisconnect (s : ClientState) (reason : String) : ClientState :=
  let s1 := { s with isConnected := false, reconnectTimer := none }
  let pend := s1.subscribers.foldl (fun acc (p : String × List Nat) => setInsert p.1 acc)
    s1.pendingSubscriptions
  let s2 := { s1 with pendingSubscriptions := pend }
  let s3 := { s2 with log := s2.log ++ [WireItem.disconnectedEvent] }
  if reason ≠ "io client disconnect" ∧ reason ≠ "transport close" then
    scheduleReconnection s3
  else s3

/-- Socket `connect_error` handler (lines 246-274): drop the flags, emit an
`error` event with the classified code, and schedule reconnection. -/
def handleConnectError (s : ClientState) (code : String) : ClientState :=
  let s1 := { s with isConnected := false, log := s.log ++ [WireItem.errorEvent code] }
  scheduleReconnection s1

/-- `disconnect()` (lines 512-524): `clearTimers`, `socket.disconnect()`
(which fires the disconnect handler with reason `'io client disconnect'`),
then clear both registries and reset the attempt counter. -/
def disconnect (s : ClientState) : ClientState :=
  let s1 := handleDisconnect { s with reconnectTimer := none } "io client disconnect"
  { s1 with isConnected := false, subscribers := [], pendingSubscriptions := [],
            reconnectAttempts := 0 }

/-- N successive `subscribe(symbol, cb)` calls. -/
def subscribeAll (s : ClientState) (symbol : String) (cbs : List Nat) : ClientState :=
  cbs.foldl (fun t cb => subscribe t symbol cb) s

/-- A connected client with one EURUSD subscriber, used as concrete input. -/
def demoConnected : ClientState :=
  { subscribers := [("EURUSD", [0])], pendingSubscriptions := [], isConnected := true,
    reconnectAttempts := 0, reconnectTimer := none, log := [] }

/-! ### Claim C4: subscription multiplexing -/

theorem subscribe_present (s : ClientState) (symbol : String) (cb : Nat)
    (h : (mapLookup s.subscribers symbol).isSome = true) :
    (subscribe s symbol cb).log = s.log ∧
    (subscribe s symbol cb).pendingSubscriptions = s.pendingSubscriptions ∧
    (mapLookup (subscribe s symbol cb).subscribers symbol).isSome = true := by
  obtain ⟨cbs, hcbs⟩ := Option.isSome_iff_exists.mp h
  simp [subscribe, hcbs, mapLookup_mapSet_self]

theorem subscribe_absent_connected (s : ClientState) (symbol : String) (cb : Nat)
    (hc : s.isConnected = true) (h : mapLookup s.subscribers symbol = none) :
    (subscribe s symbol cb).log = s.log ++ [WireItem.subscribeEmit symbol] ∧
    (subscribe s symbol cb).pendingSubscriptions = s.pendingSubscriptions ∧
    (mapLookup (subscribe s symbol cb).subscribers symbol).isSome = true := by
  simp [subscribe, h, sendSubscribe, hc, mapLookup_mapSet_self]

theorem subscribe_absent_disconnected (s : ClientState) (symbol : String) (cb : Nat)
    (hc : s.isConnected = false) (h : mapLookup s.subscribers symbol = none) :
    (subscribe s symbol cb).log = s.log ∧
    (subscribe s symbol cb).pendingSubscriptions
        = setInsert symbol s.pendingSubscriptions ∧
    (mapLookup (subscribe s symbol cb).subscribers symbol).isSome = true := by
  simp [subscribe, h, sendSubscribe, hc, mapLookup_mapSet_self]

theorem subscribeAll_present (s : ClientState) (symbol : String) (cbs : List Nat)
    (h : (mapLookup s.subscribers symbol).isSome = true) :
    (subscribeAll s symbol cbs).log = s.log ∧
    (subscribeAll s symbol cbs).pendingSubscriptions = s.pendingSubscriptions := by
  induction cbs generalizing s with
  | nil => exact ⟨rfl, rfl⟩
  | cons cb rest ih =>
      obtain ⟨h1, h2, h3⟩ := subscribe_present s symbol cb h
      have hr := ih (subscribe s symbol cb) h3
      exact ⟨hr.1.trans h1, hr.2.trans h2⟩

/-- Claim C4.  For every symbol: N `subscribe(symbol, cb_i)` calls cause
exactly one outbound subscribe emission — sent immediately on the first call
if connected, otherwise queued exactly once in PendingSubscriptions — and a
`subscribe` call can only emit when the symbol has no callback set, so no
further subscribe emission occurs while callbacks remain; subscribing to an
already-subscribed symbol never re-emits. -/
theorem subscribe_multiplexing :
    (∀ (s : ClientState) (symbol : String) (cb : Nat),
        (mapLookup s.subscribers symbol).isSome = true →
        (subscribe s symbol cb).log = s.log ∧
        (subscribe s symbol cb).pendingSubscriptions = s.pendingSubscriptions)
  ∧ (∀ (s : ClientState) (symbol : String) (cbs : List Nat),
        s.isConnected = true → mapLookup s.subscribers symbol = none → cbs ≠ [] →
        (subscribeAll s symbol cbs).log = s.log ++ [WireItem.subscribeEmit symbol])
  ∧ (∀ (s : ClientState) (symbol : String) (cbs : List Nat),
        s.isConnected = false → mapLookup s.subscribers symbol = none →
        symbol ∉ s.pendingSubscriptions → cbs ≠ [] →
        (subscribeAll s symbol cbs).log = s.log ∧
        (subscribeAll s symbol cbs).pendingSubscriptions.count symbol = 1)
  ∧ (∀ (s : ClientState) (symbol : String) (cb : Nat),
        (subscribe s symbol cb).log ≠ s.log → mapLookup s.subscribers symbol = none) := by
  refine ⟨?_, ?_, ?_, ?_⟩
  · intro s symbol cb h
    exact ⟨(subscribe_present s symbol cb h).1, (subscribe_present s symbol cb h).2.1⟩
  · intro s symbol cbs hc h hne
    match cbs, hne with
    | cb :: rest, _ =>
        obtain ⟨h1, h2, h3⟩ := subscribe_absent_connected s symbol cb hc h
        have hr := subscribeAll_present (subscribe s symbol cb) symbol rest h3
        calc (subscribeAll s symbol (cb :: rest)).log
            = (subscribe s symbol cb).log := hr.1
          _ = s.log ++ [WireItem.subscribeEmit symbol] := h1
  · intro s symbol cbs hc h hmem hne
    match cbs, hne with
    | cb :: rest, _ =>
        obtain ⟨h1, h2, h3⟩ := subscribe_absent_disconnected s symbol cb hc h
        have hr := subscribeAll_present (subscribe s symbol cb) symbol rest h3
        refine ⟨hr.1.trans h1, ?_⟩
        show (subscribeAll (subscribe s symbol cb) symbol rest).pendingSubscriptions.count
            symbol = 1
        rw [hr.2, h2, setInsert, if_neg hmem]
        simp [List.count_append, List.count_eq_zero.mpr hmem]
  · intro s symbol cb hne
    cases hs : mapLookup s.subscribers symbol with
    | none => rfl
    | some cbs =>
        exact absurd (subscribe_present s symbol cb (by simp [hs])).1 hne

/-- Witness for C4: three subscribe calls for a fresh symbol on a connected
client emit exactly one subscribe request. -/
theorem subscribe_multiplexing_witness :
    (subscribeAll demoConnected "GBPUSD" [1, 2, 3]).log
      = demoConnected.log ++ [WireItem.subscribeEmit "GBPUSD"] :=
  subscribe_multiplexing.2.1 demoConnected "GBPUSD" [1, 2, 3] (by decide) (by decide)
    (by decide)

/-! ### Claim C7: reconnection on transport close -/

/-- Claim C7 (amended).  The disconnect handler schedules reconnection iff the
close reason is neither `'io client disconnect'` nor `'transport close'` —
so a non-deliberate close with reason `'transport close'` does NOT schedule a
client-level reconnection (the code leaves that case to the transport's
built-in reconnection); a deliberate `disconnect()` produces reason
`'io client disconnect'`, cancels any pending reconnect timer, and never
triggers the automatic-reconnect path. -/
theorem reconnect_scheduling_policy :
    (∀ (s : ClientState) (reason : String),
        reason ≠ "io client disconnect" → reason ≠ "transport close" →
        s.reconnectAttempts < maxReconnectAttempts →
        (handleDisconnect s reason).reconnectTimer = some (s.reconnectAttempts + 1) ∧
        (handleDisconnect s reason).reconnectAttempts = s.reconnectAttempts + 1)
  ∧ (∀ s : ClientState,
        (handleDisconnect s "transport close").reconnectTimer = none ∧
        (handleDisconnect s "transport close").reconnectAttempts = s.reconnectAttempts)
  ∧ (∀ s : ClientState,
        (handleDisconnect s "io client disconnect").reconnectTimer = none)
  ∧ (∀ s : ClientState,
        (disconnect s).reconnectTimer = none ∧
        (disconnect s).reconnectAttempts = 0 ∧
        (disconnect s).subscribers = [] ∧
        (disconnect s).pendingSubscriptions = []) := by
  refine ⟨?_, ?_, ?_, ?_⟩
  · intro s reason h1 h2 hcap
    have hc : ¬ s.reconnectAttempts ≥ maxReconnectAttempts := by omega
    simp [handleDisconnect, scheduleReconnection, h1, h2, hc]
  · intro s
    have hno : ¬(("transport close" : String) ≠ "io client disconnect"
        ∧ ("transport close" : String) ≠ "transport close") := by decide
    simp [handleDisconnect, hno]
  · intro s
    have hno : ¬(("io client disconnect" : String) ≠ "io client disconnect"
        ∧ ("io client disconnect" : String) ≠ "transport close") := by decide
    simp [handleDisconnect, hno]
  · intro s
    have hno : ¬(("io client disconnect" : String) ≠ "io client disconnect"
        ∧ ("io client disconnect" : String) ≠ "transport close") := by decide
    simp [disconnect, handleDisconnect, hno]

/-- Witness for C7: a close with reason "ping timeout" (neither of the two
excluded reasons) schedules reconnection attempt 1. -/
theorem reconnect_scheduling_policy_witness :
    (handleDisconnect demoConnected "ping timeout").reconnectTimer
      = some (demoConnected.reconnectAttempts + 1) :=
  (reconnect_scheduling_policy.1 demoConnected "ping timeout" (by decide) (by decide)
    (by decide)).1

/-- Counterexample to C7 as stated: reason "transport close" is not a
deliberate local disconnect() — it is the transport dropping — yet the client
schedules no reconnection attempt for it. -/
theorem reconnect_on_close_counterexample :
    (handleDisconnect demoConnected "transport close").reconnectTimer = none ∧
    (handleDisconnect demoConnected "transport close").reconnectAttempts = 0 := by
  decide

/-! ### Claim C6: replay of subscriptions after reconnect -/

theorem setInsert_not_mem (x : String) (xs : List String) (h : x ∉ xs) :
    setInsert x xs = xs ++ [x] := by
  simp [setInsert, h]

theorem foldl_setInsert_fresh (keys : List String) (acc : List String)
    (hnd : keys.Nodup) (hfresh : ∀ x ∈ keys, x ∉ acc) :
    keys.foldl (fun a x => setInsert x a) acc = acc ++ keys := by
  induction keys generalizing acc with
  | nil => simp
  | cons k rest ih =>
      have hk : k ∉ acc := hfresh k (List.mem_cons_self k rest)
      rw [List.foldl_cons, setInsert_not_mem k acc hk, ih (acc ++ [k])
        (List.nodup_cons.mp hnd).2 ?fresh]
      · simp
      case fresh =>
        intro x hx hmem
        rcases List.mem_append.mp hmem with hxa | hxk
        · exact hfresh x (List.mem_cons_of_mem _ hx) hxa
        · rw [List.mem_singleton] at hxk
          subst hxk
          exact (List.nodup_cons.mp hnd).1 hx

theorem flush_sendSubscribe (syms : List String) (s : ClientState)
    (hc : s.isConnected = true) :
    syms.foldl sendSubscribe s
      = { s with log := s.log ++ syms.map WireItem.subscribeEmit } := by
  induction syms generalizing s with
  | nil => simp
  | cons k rest ih =>
      have hstep : sendSubscribe s k
          = { s with log := s.log ++ [WireItem.subscribeEmit k] } := by
        simp [sendSubscribe, hc]
      rw [List.foldl_cons, hstep, ih { s with log := s.log ++ [WireItem.subscribeEmit k] } hc]
      simp

theorem count_map_subscribeEmit (keys : List String) (sym : String) (hnd : keys.Nodup) :
    (keys.map WireItem.subscribeEmit).count (WireItem.subscribeEmit sym)
      = if sym ∈ keys then 1 else 0 := by
  induction keys with
  | nil => simp
  | cons k rest ih =>
      by_cases hk : k = sym
      · subst hk
        have hnm : k ∉ rest := (List.nodup_cons.mp hnd).1
        simp [List.count_cons, ih (List.nodup_cons.mp hnd).2, hnm]
      · have hne : ¬(WireItem.subscribeEmit sym = WireItem.subscribeEmit k) := by
          intro hcon
          exact hk (WireItem.subscribeEmit.inj hcon).symm
        simp [List.count_cons, ih (List.nodup_cons.mp hnd).2, hk, Ne.symm hk]

theorem handleDisconnect_parts (s : ClientState) (reason : String)
    (hcap : s.reconnectAttempts < maxReconnectAttempts) :
    (handleDisconnect s reason).log = s.log ++ [WireItem.disconnectedEvent] ∧
    (handleDisconnect s reason).pendingSubscriptions
      = s.subscribers.foldl (fun acc (p : String × List Nat) => setInsert p.1 acc)
          s.pendingSubscriptions ∧
    (handleDisconnect s reason).subscribers = s.subscribers := by
  have hc : ¬ s.reconnectAttempts ≥ maxReconnectAttempts := by omega
  by_cases h : reason ≠ "io client disconnect" ∧ reason ≠ "transport close"
  · simp [handleDisconnect, scheduleReconnection, h, hc]
  · simp [handleDisconnect, h]

/-- Claim C6 (amended).  Given active subscriptions before a transport close,
after the next successful reopen exactly one subscribe emission per subscribed
symbol is sent, with no duplicates and no omissions — but the `connected`
event is emitted AFTER those post-reopen subscribe emissions, not before: the
connect handler flushes PendingSubscriptions first (client.ts lines 210-213)
and emits `connected` afterwards (lines 215-219). -/
theorem reconnect_replay (s : ClientState) (reason : String)
    (_hconn : s.isConnected = true) (hpend : s.pendingSubscriptions = [])
    (hnd : (s.subscribers.map Prod.fst).Nodup)
    (hcap : s.reconnectAttempts < maxReconnectAttempts) :
    (handleConnect (handleDisconnect s reason)).log
      = s.log ++ [WireItem.disconnectedEvent]
        ++ (s.subscribers.map Prod.fst).map WireItem.subscribeEmit
        ++ [WireItem.connectedEvent]
    ∧ (∀ sym : String,
        ((s.subscribers.map Prod.fst).map WireItem.subscribeEmit).count
            (WireItem.subscribeEmit sym)
          = if sym ∈ s.subscribers.map Prod.fst then 1 else 0) := by
  obtain ⟨hl, hp, hs⟩ := handleDisconnect_parts s reason hcap
  refine ⟨?_, fun sym => count_map_subscribeEmit _ sym hnd⟩
  have hkeys : (handleDisconnect s reason).pendingSubscriptions
      = s.subscribers.map Prod.fst := by
    rw [hp, hpend]
    rw [show (s.subscribers.foldl
          (fun acc (p : String × List Nat) => setInsert p.1 acc) [])
        = (s.subscribers.map Prod.fst).foldl (fun a x => setInsert x a) [] from
      (List.foldl_map Prod.fst (fun a x => setInsert x a) s.subscribers []).symm]
    rw [foldl_setInsert_fresh _ [] hnd (fun x _ => List.not_mem_nil x)]
    simp
  have hflush := flush_sendSubscribe (handleDisconnect s reason).pendingSubscriptions
    { handleDisconnect s reason with
        isConnected := true, reconnectAttempts := 0, reconnectTimer := none } rfl
  calc (handleConnect (handleDisconnect s reason)).log
      = (handleDisconnect s reason).log
          ++ (handleDisconnect s reason).pendingSubscriptions.map WireItem.subscribeEmit
          ++ [WireItem.connectedEvent] := by
        simp [handleConnect, hflush]
    _ = s.log ++ [WireItem.disconnectedEvent]
          ++ (s.subscribers.map Prod.fst).map WireItem.subscribeEmit
          ++ [WireItem.connectedEvent] := by
        rw [hl, hkeys]

/-- Witness for C6: one EURUSD subscriber, a close, then a successful reopen:
the wire log shows the disconnected event, then exactly one subscribe
emission, then the connected event. -/
theorem reconnect_replay_witness :
    (handleConnect (handleDisconnect demoConnected "transport close")).log
      = demoConnected.log ++ [WireItem.disconnectedEvent]
        ++ (demoConnected.subscribers.map Prod.fst).map WireItem.subscribeEmit
        ++ [WireItem.connectedEvent] :=
  (reconnect_replay demoConnected "transport close" (by decide) (by decide) (by decide)
    (by decide)).1

/-- Counterexample to C6 as stated: in the post-reopen log the subscribe
emission for EURUSD comes BEFORE the connected event, while the claim puts
the connected event first. -/
theorem reconnect_replay_order_counterexample :
    (handleConnect (handleDisconnect demoConnected "transport close")).log
      = [WireItem.disconnectedEvent, WireItem.subscribeEmit "EURUSD",
         WireItem.connectedEvent] := by
  decide

/-! ### Claim C8: exponential backoff and the attempt cap

The automatic retry loop of the source is: a scheduled reconnect timer fires,
`connect()` runs, the attempt fails, the socket `connect_error` handler emits
an `error` event and calls `scheduleReconnection` again.  `autoStep` is one
turn of that loop (a set timer firing into a failing attempt); with no timer
set, nothing happens automatically. -/

/-- One turn of the automatic retry loop under persistent connection failure.
The fired timeout is spent, so the timer is cleared before the failure
handler runs. -/
def autoStep (s : ClientState) : ClientState :=
  match s.reconnectTimer with
  | some _ => handleConnectError { s with reconnectTimer := none } "ECONNREFUSED"
  | none => s

/-- `k` turns of the automatic retry loop. -/
def autoRun (s : ClientState) (k : Nat) : ClientState :=
  autoStep^[k] s

/-- A fresh client that has never connected. -/
def initialClient : ClientState :=
  { subscribers := [], pendingSubscriptions := [], isConnected := false,
    reconnectAttempts := 0, reconnectTimer := none, log := [] }

/-- The state right after the first failed connection attempt. -/
def reconnectStart : ClientState :=
  handleConnectError initialClient "ECONNREFUSED"

/-- Closed form of the automatic retry loop under persistent failure. -/
def expectedAuto (k : Nat) : ClientState :=
  if k < maxReconnectAttempts then
    { subscribers := [], pendingSubscriptions := [], isConnected := false,
      reconnectAttempts := k + 1, reconnectTimer := some (k + 1),
      log := List.replicate (k + 1) (WireItem.errorEvent "ECONNREFUSED") }
  else
    { subscribers := [], pendingSubscriptions := [], isConnected := false,
      reconnectAttempts := maxReconnectAttempts, reconnectTimer := none,
      log := List.replicate (maxReconnectAttempts + 1) (WireItem.errorEvent "ECONNREFUSED")
        ++ [WireItem.errorEvent "MAX_RECONNECT_ATTEMPTS"] }

theorem autoRun_closed (k : Nat) : autoRun reconnectStart k = expectedAuto k := by
  induction k with
  | zero => decide
  | succ k ih =>
      rw [autoRun, Function.iterate_succ_apply', ← autoRun, ih]
      by_cases hk : k < maxReconnectAttempts
      · by_cases hk1 : k + 1 < maxReconnectAttempts
        · have hge : ¬ (k + 1 ≥ maxReconnectAttempts) := by omega
          simp [expectedAuto, hk, hk1, autoStep, handleConnectError, scheduleReconnection,
            hge, List.replicate_succ']
        · have hq : k = 9 := by
            simp [maxReconnectAttempts] at hk hk1
            omega
          subst hq
          decide
      · have hk1 : ¬ (k + 1 < maxReconnectAttempts) := by omega
        simp [expectedAuto, hk, hk1, autoStep]

/-- Claim C8.  `scheduleReconnection` below the cap increments the attempt
counter, arms the timer for the new attempt `n` (whose delay is
`delayOf n = 5000 * 1.5 ^ (n - 1)` ms, so consecutive delays are
non-decreasing, strictly increasing from attempt 1 on), and emits nothing.
Under the automatic retry loop no more than `maxReconnectAttempts = 10`
attempts occur, and once the cap is reached the MAX_RECONNECT_ATTEMPTS error
event has been emitted exactly once and no further attempt is scheduled. -/
theorem backoff_policy :
    (∀ s : ClientState, s.reconnectAttempts < maxReconnectAttempts →
        (scheduleReconnection s).reconnectAttempts = s.reconnectAttempts + 1 ∧
        (scheduleReconnection s).reconnectTimer = some (s.reconnectAttempts + 1) ∧
        (scheduleReconnection s).log = s.log)
  ∧ delayOf 1 = 5000
  ∧ (∀ n : Nat, delayOf n ≤ delayOf (n + 1))
  ∧ (∀ n : Nat, 1 ≤ n → delayOf n < delayOf (n + 1))
  ∧ (∀ k : Nat, (autoRun reconnectStart k).reconnectAttempts ≤ maxReconnectAttempts)
  ∧ (∀ k : Nat, maxReconnectAttempts ≤ k →
        (autoRun reconnectStart k).log.count (WireItem.errorEvent "MAX_RECONNECT_ATTEMPTS")
            = 1 ∧
        (autoRun reconnectStart k).reconnectTimer = none) := by
  refine ⟨?_, ?_, ?_, ?_, ?_, ?_⟩
  · intro s hcap
    have hge : ¬ (s.reconnectAttempts ≥ maxReconnectAttempts) := by omega
    simp [scheduleReconnection, hge]
  · norm_num [delayOf, reconnectDelay, reconnectDelayMultiplier]
  · intro n
    have hpow : reconnectDelayMultiplier ^ (n - 1) ≤ reconnectDelayMultiplier ^ (n + 1 - 1) := by
      apply pow_le_pow_right₀
      · norm_num [reconnectDelayMultiplier]
      · omega
    have hbase : (0 : ℚ) ≤ reconnectDelay := by norm_num [reconnectDelay]
    exact mul_le_mul_of_nonneg_left hpow hbase
  · intro n hn
    have hpow : reconnectDelayMultiplier ^ (n - 1) < reconnectDelayMultiplier ^ (n + 1 - 1) := by
      apply pow_lt_pow_right₀
      · norm_num [reconnectDelayMultiplier]
      · omega
    have hbase : (0 : ℚ) < reconnectDelay := by norm_num [reconnectDelay]
    exact mul_lt_mul_of_pos_left hpow hbase
  · intro k
    rw [autoRun_closed]
    by_cases hk : k < maxReconnectAttempts
    · simp [expectedAuto, hk]
      omega
    · simp [expectedAuto, hk]
  · intro k hk
    have hk' : ¬ (k < maxReconnectAttempts) := by omega
    rw [autoRun_closed]
    simp only [expectedAuto, hk', if_false]
    decide

/-- Witness for C8: scheduling from the post-first-failure state arms the
timer for attempt 2. -/
theorem backoff_policy_witness :
    (scheduleReconnection reconnectStart).reconnectTimer
      = some (reconnectStart.reconnectAttempts + 1) :=
  (backoff_policy.1 reconnectStart (by decide)).2.1

/-! ### Coalescing candle cache (market-data hook)

The hook keeps two module-level maps, `candlesCache : Map<string, any[]>` and
`candlesPromises : Map<string, Promise<any[]>>`, and `getCandlesWithCache`
checks the promise map first, then the cache, then issues one
`wsClient.getCandles` network request.  Promises are modelled by identifiers:
two callers holding the same identifier hold the same promise and therefore
resolve to the same value.  The 30-second `setTimeout` that deletes a cache
entry is the `expireCandles` event, so an unexpired entry is exactly a
present one. -/

/-- The two module-level maps, a fresh-promise counter, and the log of
outbound `get_candles` emissions. -/
structure CacheState where
  candlesCache : List (String × List Nat)
  candlesPromises : List (String × Nat)
  nextPromiseId : Nat
  requests : List (String × String × Nat)
  deriving DecidableEq, Repr

/-- What a `getCandlesWithCache` call hands back: a (possibly shared)
in-flight promise, or a cached value. -/
inductive CandlesResult
  | inFlight (pid : Nat)
  | cachedValue (v : List Nat)
  deriving DecidableEq, Repr

/-- The cache key: `` `${symbol}_${timeframe}_${count}` ``. -/
def buildCacheKey (symbol timeframe : String) (count : Nat) : String :=
  symbol ++ "_" ++ timeframe ++ "_" ++ toString count

/-- `getCandlesWithCache` (hook lines 14-48): reuse an in-flight promise if
one exists for the key; else serve a cached value; else issue one network
request and record the new promise as in-flight. -/
def getCandlesWithCache (s : CacheState) (symbol timeframe : String) (count : Nat) :
    CacheState × CandlesResult :=
  let cacheKey := buildCacheKey symbol timeframe count
  match mapLookup s.candlesPromises cacheKey with
  | some pid => (s, CandlesResult.inFlight pid)
  | none =>
      match mapLookup s.candlesCache cacheKey with
      | some v => (s, CandlesResult.cachedValue v)
      | none =>
          let pid := s.nextPromiseId
          ({ candlesCache := s.candlesCache,
             candlesPromises := mapSet s.candlesPromises cacheKey pid,
             nextPromiseId := pid + 1,
             requests := s.requests ++ [(symbol, timeframe, count)] },
           CandlesResult.inFlight pid)

/-- The in-flight promise for a key resolves with `v` (hook lines 29-39):
store the value in the cache and drop the in-flight marker. -/
def settleCandles (s : CacheState) (symbol timeframe : String) (count : Nat)
    (v : List Nat) : CacheState :=
  let cacheKey := buildCacheKey symbol timeframe count
  { s with candlesCache := mapSet s.candlesCache cacheKey v,
           candlesPromises := mapDelete s.candlesPromises cacheKey }

/-- The in-flight promise for a key rejects (hook lines 40-44): drop the
in-flight marker and cache nothing. -/
def rejectCandles (s : CacheState) (symbol timeframe : String) (count : Nat) :
    CacheState :=
  let cacheKey := buildCacheKey symbol timeframe count
  { s with candlesPromises := mapDelete s.candlesPromises cacheKey }

/-- The 30s expiry timer for a key fires (hook lines 35-37). -/
def expireCandles (s : CacheState) (symbol timeframe : String) (count : Nat) :
    CacheState :=
  let cacheKey := buildCacheKey symbol timeframe count
  { s with candlesCache := mapDelete s.candlesCache cacheKey }

/-- `m` successive `getCandlesWithCache` calls for the same key, collecting
the returned handles. -/
def iterCalls (s : CacheState) (symbol timeframe : String) (count : Nat) :
    Nat → CacheState × List CandlesResult
  | 0 => (s, [])
  | m + 1 =>
      let r := getCandlesWithCache s symbol timeframe count
      let rest := iterCalls r.1 symbol timeframe count m
      (rest.1, r.2 :: rest.2)

/-- The empty module state. -/
def emptyCache : CacheState :=
  { candlesCache := [], candlesPromises := [], nextPromiseId := 0, requests := [] }

theorem getCandlesWithCache_joins (s : CacheState) (symbol timeframe : String)
    (count pid : Nat)
    (h : mapLookup s.candlesPromises (buildCacheKey symbol timeframe count) = some pid) :
    getCandlesWithCache s symbol timeframe count = (s, CandlesResult.inFlight pid) := by
  simp [getCandlesWithCache, h]

theorem iterCalls_joined (s : CacheState) (symbol timeframe : String) (count pid m : Nat)
    (h : mapLookup s.candlesPromises (buildCacheKey symbol timeframe count) = some pid) :
    iterCalls s symbol timeframe count m
      = (s, List.replicate m (CandlesResult.inFlight pid)) := by
  induction m with
  | zero => rfl
  | succ m ih =>
      rw [iterCalls]
      simp only [getCandlesWithCache_joins s symbol timeframe count pid h]
      rw [ih]
      simp [List.replicate_succ]

/-- Claim C5.  For a fixed key with no in-flight promise and no unexpired
cache entry, `m + 1` concurrent `getCandlesWithCache` calls issue exactly one
outbound `get_candles` request, and every caller receives the SAME in-flight
promise (identifier `s.nextPromiseId`) — hence all resolve to the same candle
list.  On rejection the in-flight marker is removed without caching anything,
so the next caller issues a fresh network request. -/
theorem getCandles_coalescing :
    (∀ (s : CacheState) (symbol timeframe : String) (count m : Nat),
        mapLookup s.candlesPromises (buildCacheKey symbol timeframe count) = none →
        mapLookup s.candlesCache (buildCacheKey symbol timeframe count) = none →
        (iterCalls s symbol timeframe count (m + 1)).1.requests
            = s.requests ++ [(symbol, timeframe, count)] ∧
        (iterCalls s symbol timeframe count (m + 1)).2
            = List.replicate (m + 1) (CandlesResult.inFlight s.nextPromiseId))
  ∧ (∀ (s : CacheState) (symbol timeframe : String) (count : Nat),
        mapLookup s.candlesCache (buildCacheKey symbol timeframe count) = none →
        mapLookup (rejectCandles s symbol timeframe count).candlesPromises
            (buildCacheKey symbol timeframe count) = none ∧
        mapLookup (rejectCandles s symbol timeframe count).candlesCache
            (buildCacheKey symbol timeframe count) = none ∧
        (getCandlesWithCache (rejectCandles s symbol timeframe count)
              symbol timeframe count).1.requests
          = (rejectCandles s symbol timeframe count).requests
              ++ [(symbol, timeframe, count)]) := by
  constructor
  · intro s symbol timeframe count m hp hc
    have hfirst : getCandlesWithCache s symbol timeframe count
        = ({ candlesCache := s.candlesCache,
             candlesPromises := mapSet s.candlesPromises
               (buildCacheKey symbol timeframe count) s.nextPromiseId,
             nextPromiseId := s.nextPromiseId + 1,
             requests := s.requests ++ [(symbol, timeframe, count)] },
           CandlesResult.inFlight s.nextPromiseId) := by
      simp [getCandlesWithCache, hp, hc]
    have hjoin := iterCalls_joined
      ({ candlesCache := s.candlesCache,
         candlesPromises := mapSet s.candlesPromises
           (buildCacheKey symbol timeframe count) s.nextPromiseId,
         nextPromiseId := s.nextPromiseId + 1,
         requests := s.requests ++ [(symbol, timeframe, count)] })
      symbol timeframe count s.nextPromiseId m (mapLookup_mapSet_self _ _ _)
    rw [iterCalls]
    simp only [hfirst, hjoin]
    simp [List.replicate_succ]
  · intro s symbol timeframe count hc
    refine ⟨mapLookup_mapDelete_self _ _, hc, ?_⟩
    simp [getCandlesWithCache, mapLookup_mapDelete_self, rejectCandles, hc]

/-- Witness for C5: three concurrent calls on the empty state produce one
request and three copies of the same in-flight promise. -/
theorem getCandles_coalescing_witness :
    (iterCalls emptyCache "BTCUSD" "M5" 100 (2 + 1)).1.requests
        = emptyCache.requests ++ [("BTCUSD", "M5", 100)] ∧
    (iterCalls emptyCache "BTCUSD" "M5" 100 (2 + 1)).2
        = List.replicate (2 + 1) (CandlesResult.inFlight emptyCache.nextPromiseId) :=
  getCandles_coalescing.1 emptyCache "BTCUSD" "M5" 100 2 (by decide) (by decide)

/-- Claim C10.  The cache key `symbol ++ "_" ++ timeframe ++ "_" ++ count` is
not injective: the distinct request triples ("A_B", "C", 100) and
("A", "B_C", 100) share the key "A_B_C_100", so the second request joins the
in-flight promise created for the first (no new network request), and after
the first resolves the second is served the first's cached candle list. -/
theorem cache_key_collision :
    buildCacheKey "A_B" "C" 100 = buildCacheKey "A" "B_C" 100 ∧
    (("A_B", "C") : String × String) ≠ ("A", "B_C") ∧
    (getCandlesWithCache (getCandlesWithCache emptyCache "A_B" "C" 100).1
        "A" "B_C" 100).2 = CandlesResult.inFlight 0 ∧
    (getCandlesWithCache (getCandlesWithCache emptyCache "A_B" "C" 100).1
        "A" "B_C" 100).1.requests = [("A_B", "C", 100)] ∧
    (getCandlesWithCache (settleCandles (getCandlesWithCache emptyCache "A_B" "C" 100).1
        "A_B" "C" 100 [7]) "A" "B_C" 100).2 = CandlesResult.cachedValue [7] := by
  decide

/-! ### Claim C9: double delivery through `on` while connected

`on(event, cb)` (client.ts lines 64-74) adds `cb` to the internal
`eventListeners` Set for the event and, when the socket exists and the client
is connected, ALSO registers it directly on the socket.  Independently,
`setupSocketListeners` (lines 289-333) installs, for every inbound event name
except `tick`, a forwarding socket listener that re-emits the event to the
internal listener set; `tick` (lines 276-287) is instead dispatched to the
per-symbol subscriber registry and never reaches `eventListeners`.  The
forwarders are installed at connect time, before any direct registration made
by a later `on` call, so on an inbound event the socket fires the forwarder
(delivering to the internal set) first and the directly-registered callbacks
after. -/

/-- The inbound event names of `WebSocketEventMap` (types.ts). -/
inductive EvName
  | connected
  | disconnected
  | error
  | tick
  | candles
  | order_book
  | account_info
  | market_summary
  | health
  | symbols
  | subscribed
  | unsubscribed
  deriving DecidableEq, Repr

/-- Which inbound socket events `setupSocketListeners` re-emits to the
internal listener set: all of them except `tick`. -/
def forwardedToBus : EvName → Bool
  | .tick => false
  | _ => true

/-- Listener bookkeeping: the internal `eventListeners` map of Sets, and the
callbacks registered directly on the socket by `on` while connected (the
socket appends listeners, duplicates allowed). -/
structure ListenerState where
  eventListeners : List (EvName × List Nat)
  socketDirect : List (EvName × List Nat)
  deriving DecidableEq, Repr

/-- The callback list for an event, empty when the event is unknown. -/
def getListeners (m : List (EvName × List Nat)) (e : EvName) : List Nat :=
  (mapLookup m e).getD []

/-- The `on` method (client.ts lines 64-74; `on` is reserved notation in this
development, hence the name): always add to the internal Set; when connected,
also register directly on the socket. -/
def onEvent (s : ListenerState) (connected : Bool) (e : EvName) (cb : Nat) : ListenerState :=
  let newBus := mapSet s.eventListeners e (cbInsert cb (getListeners s.eventListeners e))
  let s1 := { s with eventListeners := newBus }
  if connected then
    let newDirect := mapSet s1.socketDirect e (getListeners s1.socketDirect e ++ [cb])
    { s1 with socketDirect := newDirect }
  else s1

/-- The callback invocations one inbound socket event of name `e` produces,
in order: the setup-time forwarder delivers to the internal listener set
(except for `tick`), then the directly-registered callbacks fire. -/
def dispatchInbound (s : ListenerState) (e : EvName) : List Nat :=
  (if forwardedToBus e then getListeners s.eventListeners e else [])
    ++ getListeners s.socketDirect e

/-- A client with no listeners registered. -/
def emptyListeners : ListenerState :=
  { eventListeners := [], socketDirect := [] }

/-- Claim C9 (amended).  If `on(event, cb)` is called while connected with a
callback not yet in the internal set, then for every event name that
`setupSocketListeners` forwards to the internal listener set — all inbound
names except `tick` — `cb` is invoked twice per subsequent inbound event of
that name (once via the forwarder, once via the direct socket registration);
for `tick`, which is routed to the per-symbol subscriber registry instead,
`cb` is invoked only once, via the direct registration. -/
theorem on_while_connected_double_delivery :
    (∀ (s : ListenerState) (e : EvName) (cb : Nat), forwardedToBus e = true →
        cb ∉ getListeners s.eventListeners e →
        (dispatchInbound (onEvent s true e cb) e).count cb
          = (dispatchInbound s e).count cb + 2)
  ∧ (∀ (s : ListenerState) (cb : Nat),
        cb ∉ getListeners s.eventListeners EvName.tick →
        (dispatchInbound (onEvent s true EvName.tick cb) EvName.tick).count cb
          = (dispatchInbound s EvName.tick).count cb + 1) := by
  constructor
  · intro s e cb hf hmem
    have hmem' : cb ∉ (mapLookup s.eventListeners e).getD [] := hmem
    simp [dispatchInbound, onEvent, hf, getListeners, mapLookup_mapSet_self, cbInsert,
      hmem', List.count_append]
    omega
  · intro s cb hmem
    have hmem' : cb ∉ (mapLookup s.eventListeners EvName.tick).getD [] := hmem
    simp [dispatchInbound, onEvent, forwardedToBus, getListeners, mapLookup_mapSet_self,
      cbInsert, hmem', List.count_append]

/-- Witness for C9: registering a fresh callback for `candles` while connected
makes one inbound `candles` event invoke it twice. -/
theorem on_double_delivery_witness :
    (dispatchInbound (onEvent emptyListeners true EvName.candles 7) EvName.candles).count 7
      = (dispatchInbound emptyListeners EvName.candles).count 7 + 2 :=
  on_while_connected_double_delivery.1 emptyListeners EvName.candles 7 (by decide)
    (by decide)

/-- Counterexample to C9 as stated: after `on('tick', cb)` while connected, an
inbound `tick` event invokes `cb` once, not twice — the tick handler
dispatches to the per-symbol subscriber registry, not to the internal
listener set. -/
theorem tick_single_delivery_counterexample :
    (dispatchInbound (onEvent emptyListeners true EvName.tick 0) EvName.tick).count 0 = 1 := by
  decide

end WRTradePro
